import Mathlib

/-!
Shallow embedding of the Dashboard page of gofinances-web
(`src/pages/Dashboard/index.tsx`).

The component owns a local page of transactions, aggregate balance figures,
a 1-indexed page cursor, the global transaction count and a busy flag, and
reconciles them with a remote paginated source on mount, page change and
delete.  Remote calls are modelled by passing their outcome explicitly
(`Option FetchResponse` for the list fetch, a `Bool` for the delete); a
thrown `await` aborts the rest of the handler, which the embedding renders
as the failure branch performing none of the subsequent state updates.
-/

/-- The `type` tag of a transaction: exactly the two variants of the
TypeScript union `'income' | 'outcome'`. -/
inductive TxType where
  | income
  | outcome
deriving DecidableEq, Repr

/-- The `category` record of a transaction (`category: { title: string }`). -/
structure Category where
  title : String
deriving DecidableEq, Repr

/-- The `Transaction` interface of `Dashboard/index.tsx`.  `created_at` is a
timestamp, modelled as a natural number. -/
structure Transaction where
  id : String
  title : String
  value : String
  formattedValue : String
  formattedDate : String
  type : TxType
  category : Category
  created_at : Nat
deriving DecidableEq, Repr

/-- The `Balance` interface.  The component initialises the balance with
`{} as Balance`, so each field may be `undefined` before the first fetch
completes; a TypeScript `string | undefined` field is modelled as
`Option String` with `none` for `undefined`. -/
structure Balance where
  income : Option String
  outcome : Option String
  total : Option String
deriving DecidableEq, Repr

/-- The state owned by the Dashboard component: the local transaction page,
the balance, the page cursor, the global count and the busy flag.  The
modal-related state (`modalIsOpen`, `editingTransaction`) is pure
presentation and carries no list-synchronisation logic, so it is omitted. -/
structure DashboardState where
  transactions : List Transaction
  balance : Balance
  currentPage : Nat
  totalTransactions : Nat
  loadingCards : Bool
deriving DecidableEq, Repr

/-- `useState(5)` with no setter ever destructured: the page size is the
constant 5. -/
def limitPerPage : Nat := 5

/-- The initial state produced by the `useState` initialisers:
empty list, `{} as Balance` (all fields undefined), page 1, zero total,
busy flag false. -/
def initialState : DashboardState :=
  { transactions := []
    balance := { income := none, outcome := none, total := none }
    currentPage := 1
    totalTransactions := 0
    loadingCards := false }

/-- The HTTP requests the component issues through the `api` client:
`api.get` with the page and limit query parameters, and `api.delete` with
the transaction id in the path. -/
inductive Request where
  | getTransactions (page limit : Nat)
  | deleteTransaction (id : String)
deriving DecidableEq, Repr

/-- The balance object of a successful `GET /transactions` response: the
remote source always supplies all three fields as strings. -/
structure RemoteBalance where
  income : String
  outcome : String
  total : String
deriving DecidableEq, Repr

/-- The body of a successful `GET /transactions` response
(`response.data`). -/
structure FetchResponse where
  transactions : List Transaction
  balance : RemoteBalance
  totalTransactions : Nat
deriving DecidableEq, Repr

/-- Modelled from the spec: the digit-string-to-number part of JavaScript
`Number(...)` coercion, which is a platform builtin not present in the
repository.  Folds decimal digits left to right; any non-digit character
makes the parse fail (`none`).  An empty digit list yields 0, matching
`Number('')` being 0. -/
def digitsToNat (cs : List Char) : Option Nat :=
  cs.foldl
    (fun acc c =>
      acc.bind (fun n => if c.isDigit then some (n * 10 + (c.toNat - 48)) else none))
    (some 0)

/-- Modelled from the spec: `Number(...)` applied to an unsigned decimal
literal `intPart[.fracPart]`; non-numeric input yields `none` (NaN). -/
def parseUnsignedDecimal (cs : List Char) : Option Rat :=
  let intDigits := cs.takeWhile (fun c => c != '.')
  let rest := cs.dropWhile (fun c => c != '.')
  match digitsToNat intDigits, rest with
  | some i, [] => some (mkRat (Int.ofNat i) 1)
  | some i, _ :: frac =>
    match digitsToNat frac with
    | some f => some (mkRat (Int.ofNat (i * 10 ^ frac.length + f)) (10 ^ frac.length))
    | none => none
  | none, _ => none

/-- Modelled from the spec: JavaScript `Number(x)` for the string-or-undefined
values this component feeds it.  `Number(undefined)` is NaN (`none`); a string
is parsed as an optionally negated decimal literal, anything else is NaN.
A JavaScript number is modelled as `Option Rat` with `none` for NaN. -/
def jsNumber (v : Option String) : Option Rat :=
  match v with
  | none => none
  | some s =>
    match s.data with
    | '-' :: rest => (parseUnsignedDecimal rest).map (fun q => -q)
    | cs => parseUnsignedDecimal cs

/-- Modelled from the spec: the external formatter utility
`formatValue(amount: number) -> string` (in `src/utils/formatValue.ts`, not
part of the provided sources) renders a currency string with the `R$ `
prefix and produces the not-a-number sentinel string `R$ NaN` for
non-numeric input.  The numeric rendering itself is abstracted as the
rational's numeral string. -/
def formatValue (n : Option Rat) : String :=
  match n with
  | none => "R$ NaN"
  | some q => "R$ " ++ toString q

/-- Modelled from the spec: the external formatter utility
`formatDate(timestamp) -> string` (in `src/utils/formatDate.ts`, not part of
the provided sources) renders a localized date string; the rendering is
abstracted as the timestamp's numeral string. -/
def formatDate (d : Nat) : String :=
  Nat.repr d

/-- `loadTransactions`, first half: set the busy flag true and issue
`GET /transactions?page=currentPage&limit=limitPerPage`. -/
def loadTransactionsStart (s : DashboardState) : DashboardState × Request :=
  ({ s with loadingCards := true },
   Request.getTransactions s.currentPage limitPerPage)

/-- `loadTransactions`, second half, on a successful response: wholesale-
replace the transaction list, the balance (field by field, as the source
rebuilds the object) and the total count, then clear the busy flag. -/
def loadTransactionsFinish (s : DashboardState) (r : FetchResponse) : DashboardState :=
  { s with
    transactions := r.transactions
    balance :=
      { income := some r.balance.income
        outcome := some r.balance.outcome
        total := some r.balance.total }
    totalTransactions := r.totalTransactions
    loadingCards := false }

/-- The whole `loadTransactions` handler.  `response = some r` is a fetch
that resolved with `r`; `response = none` is a rejected fetch, which makes
the `await` throw so that nothing after it runs: the busy flag stays true
and no state is replaced. -/
def loadTransactions (s : DashboardState) (response : Option FetchResponse) :
    DashboardState × Request :=
  let (s1, req) := loadTransactionsStart s
  match response with
  | some r => (loadTransactionsFinish s1 r, req)
  | none => (s1, req)

/-- `handleChangePage`: store the page number from the pagination control
into the cursor, with no validation. -/
def handleChangePage (s : DashboardState) (prevOrNext : Nat) : DashboardState :=
  { s with currentPage := prevOrNext }

/-- A page change together with the reaction of
`useEffect(() => { loadTransactions() }, [loadTransactions])`:
`loadTransactions` is a `useCallback` over `[currentPage, limitPerPage]`, so
the effect re-runs (starting exactly one fetch for the new cursor) when and
only when the stored cursor actually changes; setting the cursor to its
current value re-renders nothing and triggers no fetch. -/
def changePageAndReload (s : DashboardState) (q : Nat) : DashboardState × List Request :=
  let s1 := handleChangePage s q
  if s.currentPage = q then (s1, [])
  else
    let (s2, req) := loadTransactionsStart s1
    (s2, [req])

/-- Result of running `handleDeleteTransaction`: the state afterwards, how
many success toasts were emitted, and the requests issued. -/
structure DeleteOutcome where
  state : DashboardState
  successToasts : Nat
  requests : List Request
deriving DecidableEq, Repr

/-- `handleDeleteTransaction(id)`: awaits `DELETE transactions/{id}`; on
success it emits one success toast and replaces the list with
`transactions.filter(t => t.id !== id)`; on failure the `await` throws, so
neither the toast nor the filter runs. -/
def handleDeleteTransaction (s : DashboardState) (x : String) (remoteOk : Bool) :
    DeleteOutcome :=
  if remoteOk then
    { state := { s with transactions := s.transactions.filter (fun t => t.id != x) }
      successToasts := 1
      requests := [Request.deleteTransaction x] }
  else
    { state := s
      successToasts := 0
      requests := [Request.deleteTransaction x] }

/-- The title decoration of `transactionsList`: a title of more than 15
characters is replaced by `title.substr(0, 15).concat('...')`. -/
def truncateTitle (t : String) : String :=
  if t.length ≤ 15 then t else t.take 15 ++ "..."

/-- One element of the `transactionsList` memo: spread the transaction and
override the display title, the formatted value and the formatted date. -/
def decorateTransaction (t : Transaction) : Transaction :=
  { t with
    title := truncateTitle t.title
    formattedValue := formatValue (jsNumber (some t.value))
    formattedDate := formatDate t.created_at }

/-- The `transactionsList` memo: the local list, decorated element-wise. -/
def transactionsList (s : DashboardState) : List Transaction :=
  s.transactions.map decorateTransaction

/-- The `incomeBalance` memo: `formatValue(Number(balance.income))`. -/
def incomeBalance (s : DashboardState) : String :=
  formatValue (jsNumber s.balance.income)

/-- The `outcomeBalance` memo: `formatValue(Number(balance.outcome))`. -/
def outcomeBalance (s : DashboardState) : String :=
  formatValue (jsNumber s.balance.outcome)

/-- The `totalBalance` memo: `formatValue(Number(balance.total))`. -/
def totalBalance (s : DashboardState) : String :=
  formatValue (jsNumber s.balance.total)

/-- The income card renders its loading placeholder exactly on the condition
of the ternary at line 149: `incomeBalance === 'R$ NaN'`. -/
def incomeCardShowsPlaceholder (s : DashboardState) : Bool :=
  incomeBalance s == "R$ NaN"

/-- The outcome card renders its loading placeholder exactly on the
condition of the ternary at line 162: `outcomeBalance === 'R$ NaN'`. -/
def outcomeCardShowsPlaceholder (s : DashboardState) : Bool :=
  outcomeBalance s == "R$ NaN"

/-- The total card renders its loading placeholder exactly on the condition
of the ternary at line 175, which checks `outcomeBalance`, not
`totalBalance`. -/
def totalCardShowsPlaceholder (s : DashboardState) : Bool :=
  outcomeBalance s == "R$ NaN"

/-- Two overlapping reloads caused by two page changes in quick succession:
both fetches are started before either response arrives, then the two
responses are applied in arrival order (`rFirst` first, `rLast` last); no
sequencing ties a response to the page it was requested for. -/
def overlappingReloads (s : DashboardState) (q1 q2 : Nat)
    (rFirst rLast : FetchResponse) : DashboardState × List Request :=
  let (s1, reqs1) := changePageAndReload s q1
  let (s2, reqs2) := changePageAndReload s1 q2
  let s3 := loadTransactionsFinish s2 rFirst
  let s4 := loadTransactionsFinish s3 rLast
  (s4, reqs1 ++ reqs2)

/-- A concrete transaction used to instantiate universally quantified
theorems; its title is the spec's 29-character example. -/
def sampleTx : Transaction :=
  { id := "t1"
    title := "Monthly Subscription Payment"
    value := "1500.50"
    formattedValue := ""
    formattedDate := ""
    type := TxType.outcome
    category := { title := "Housing" }
    created_at := 0 }

/-- A concrete state holding `sampleTx`. -/
def sampleState : DashboardState :=
  { transactions := [sampleTx]
    balance := { income := some "100", outcome := some "50", total := some "50" }
    currentPage := 1
    totalTransactions := 1
    loadingCards := false }

/-- A concrete successful fetch response (the spec's empty-page scenario). -/
def sampleResponse : FetchResponse :=
  { transactions := []
    balance := { income := "0", outcome := "0", total := "0" }
    totalTransactions := 0 }

/-- A second, distinct concrete fetch response. -/
def sampleResponseB : FetchResponse :=
  { transactions := [sampleTx]
    balance := { income := "1500.50", outcome := "0", total := "1500.50" }
    totalTransactions := 1 }

lemma truncateTitle_of_le (t : String) (h : t.length ≤ 15) :
    truncateTitle t = t := by
  simp [truncateTitle, h]

lemma truncateTitle_of_lt (t : String) (h : 15 < t.length) :
    truncateTitle t = t.take 15 ++ "..." := by
  simp [truncateTitle, Nat.not_le.mpr h]

lemma length_take_15 (t : String) (h : 15 < t.length) :
    (t.take 15).length = 15 := by
  rw [String.take_eq, String.length_mk, List.length_take]
  exact Nat.min_eq_left (Nat.le_of_lt h)

lemma truncateTitle_length (t : String) (h : 15 < t.length) :
    (truncateTitle t).length = 18 := by
  rw [truncateTitle_of_lt t h, String.length_append, length_take_15 t h]
  decide

/-- Claim C1: each balance card's loading placeholder is shown exactly when
its gating formatted value equals the currency formatter's not-a-number
sentinel `R$ NaN`, independently of the busy flag; the income and outcome
cards gate on their own formatted balances, while the total card's gate
checks the outcome's formatted value, which can disagree with the total's
own formatted value. -/
theorem claim_C1_card_loading_gates :
    (∀ (s : DashboardState) (b : Bool),
      incomeCardShowsPlaceholder { s with loadingCards := b } =
        incomeCardShowsPlaceholder s ∧
      outcomeCardShowsPlaceholder { s with loadingCards := b } =
        outcomeCardShowsPlaceholder s ∧
      totalCardShowsPlaceholder { s with loadingCards := b } =
        totalCardShowsPlaceholder s) ∧
    (∀ s : DashboardState,
      incomeCardShowsPlaceholder s = (incomeBalance s == "R$ NaN") ∧
      outcomeCardShowsPlaceholder s = (outcomeBalance s == "R$ NaN") ∧
      totalCardShowsPlaceholder s = (outcomeBalance s == "R$ NaN")) ∧
    (∃ s : DashboardState,
      totalCardShowsPlaceholder s = true ∧ (totalBalance s == "R$ NaN") = false) := by
  refine ⟨fun s b => ⟨rfl, rfl, rfl⟩, fun s => ⟨rfl, rfl, rfl⟩, ?_⟩
  refine ⟨{ transactions := []
            balance := { income := none, outcome := none, total := some "0" }
            currentPage := 1
            totalTransactions := 0
            loadingCards := false }, ?_, ?_⟩ <;> decide

/-- Claim C2: after a successful `handleDeleteTransaction` for id `x`, no
transaction with id `x` remains in the local list, and exactly one success
notification is emitted. -/
theorem claim_C2_delete_success_removes_id_and_toasts_once :
    ∀ (s : DashboardState) (x : String),
      ((handleDeleteTransaction s x true).state.transactions.all
        (fun t => t.id != x)) = true ∧
      (handleDeleteTransaction s x true).successToasts = 1 := by
  intro s x
  refine ⟨?_, rfl⟩
  rw [List.all_eq_true]
  intro t ht
  have h := List.mem_filter.mp ht
  exact h.2

/-- Claim C3: `handleDeleteTransaction` leaves the balance, the total
transaction count, the page cursor and the busy flag untouched, and issues
only the delete request — no fetch, so nothing is re-fetched or
recomputed. -/
theorem claim_C3_delete_frame :
    ∀ (s : DashboardState) (x : String) (remoteOk : Bool),
      (handleDeleteTransaction s x remoteOk).state.balance = s.balance ∧
      (handleDeleteTransaction s x remoteOk).state.totalTransactions =
        s.totalTransactions ∧
      (handleDeleteTransaction s x remoteOk).state.currentPage = s.currentPage ∧
      (handleDeleteTransaction s x remoteOk).state.loadingCards = s.loadingCards ∧
      (handleDeleteTransaction s x remoteOk).requests =
        [Request.deleteTransaction x] := by
  intro s x remoteOk
  cases remoteOk <;> exact ⟨rfl, rfl, rfl, rfl, rfl⟩

/-- Claim C4: `loadTransactions` sets the busy flag true, issues a fetch for
the current page at the fixed page size 5, and on success wholesale-replaces
the local list, the balance and the total count with the response's values,
ending with the busy flag false. -/
theorem claim_C4_reload_success_replaces_wholesale :
    ∀ (s : DashboardState) (r : FetchResponse),
      (loadTransactionsStart s).1.loadingCards = true ∧
      (loadTransactions s (some r)).2 =
        Request.getTransactions s.currentPage 5 ∧
      (loadTransactions s (some r)).1.transactions = r.transactions ∧
      (loadTransactions s (some r)).1.balance =
        { income := some r.balance.income
          outcome := some r.balance.outcome
          total := some r.balance.total } ∧
      (loadTransactions s (some r)).1.totalTransactions = r.totalTransactions ∧
      (loadTransactions s (some r)).1.loadingCards = false := by
  intro s r
  exact ⟨rfl, rfl, rfl, rfl, rfl, rfl⟩

/-- Claim C5: every element of the decorated list comes from a source
transaction; when the source title exceeds 15 characters the display title
is its first 15 characters followed by the 3-character ellipsis marker
(total length 18), otherwise the display title is the source title
unchanged. -/
theorem claim_C5_title_truncation :
    ∀ (s : DashboardState) (u : Transaction), u ∈ transactionsList s →
      ∃ t, t ∈ s.transactions ∧ u = decorateTransaction t ∧
        (15 < t.title.length →
          u.title = t.title.take 15 ++ "..." ∧ u.title.length = 18) ∧
        (t.title.length ≤ 15 → u.title = t.title) := by
  intro s u hu
  rcases List.mem_map.mp hu with ⟨t, ht, rfl⟩
  refine ⟨t, ht, rfl, fun h => ⟨?_, ?_⟩, fun h => ?_⟩
  · show truncateTitle t.title = t.title.take 15 ++ "..."
    exact truncateTitle_of_lt t.title h
  · show (truncateTitle t.title).length = 18
    exact truncateTitle_length t.title h
  · show truncateTitle t.title = t.title
    exact truncateTitle_of_le t.title h

/-- Witness for C5 at a concrete state whose single transaction carries the
29-character title of the spec's scenario. -/
theorem claim_C5_title_truncation_witness :
    ∃ t, t ∈ sampleState.transactions ∧
      decorateTransaction sampleTx = decorateTransaction t ∧
      (15 < t.title.length →
        (decorateTransaction sampleTx).title = t.title.take 15 ++ "..." ∧
        (decorateTransaction sampleTx).title.length = 18) ∧
      (t.title.length ≤ 15 → (decorateTransaction sampleTx).title = t.title) :=
  claim_C5_title_truncation sampleState (decorateTransaction sampleTx) (by decide)

/-- Claim C6: when the remote delete fails, the thrown `await` prevents
everything after it: the state (in particular the local list) is unchanged
and no success notification is emitted. -/
theorem claim_C6_delete_failure_unchanged :
    ∀ (s : DashboardState) (x : String),
      (handleDeleteTransaction s x false).state = s ∧
      (handleDeleteTransaction s x false).successToasts = 0 := by
  intro s x
  exact ⟨rfl, rfl⟩

/-- Claim C7: when the fetch fails, no failure handling runs: the busy flag,
set before the fetch, is left true, and the previously held list, balance
and total count are untouched. -/
theorem claim_C7_reload_failure_leaves_busy_flag_set :
    ∀ s : DashboardState,
      (loadTransactions s none).1.loadingCards = true ∧
      (loadTransactions s none).1.transactions = s.transactions ∧
      (loadTransactions s none).1.balance = s.balance ∧
      (loadTransactions s none).1.totalTransactions = s.totalTransactions ∧
      (loadTransactions s none).1.currentPage = s.currentPage := by
  intro s
  exact ⟨rfl, rfl, rfl, rfl, rfl⟩

/-- Claim C8: `handleChangePage` stores any page number, with no validation
against the total count, and a cursor change to a genuinely different page
triggers exactly one fetch, for that page, at page size 5. -/
theorem claim_C8_change_page_single_fetch :
    ∀ (s : DashboardState) (q : Nat),
      (handleChangePage s q).currentPage = q ∧
      (s.currentPage ≠ q →
        (changePageAndReload s q).2 = [Request.getTransactions q 5]) := by
  intro s q
  refine ⟨rfl, fun h => ?_⟩
  simp only [changePageAndReload, if_neg h]
  rfl

/-- Witness for C8: from the initial state (cursor 1), changing to the
out-of-range page 100 of an empty data set stores 100 and issues exactly one
fetch for page 100. -/
theorem claim_C8_change_page_single_fetch_witness :
    (handleChangePage initialState 100).currentPage = 100 ∧
    (changePageAndReload initialState 100).2 = [Request.getTransactions 100 5] :=
  ⟨(claim_C8_change_page_single_fetch initialState 100).1,
   (claim_C8_change_page_single_fetch initialState 100).2 (by decide)⟩

/-- Claim C9: the title truncation is idempotent: truncating an already
truncated title changes nothing (a truncated title has length 18, and its
first 15 characters are exactly the original's first 15 characters). -/
theorem claim_C9_truncation_idempotent :
    ∀ t : String, truncateTitle (truncateTitle t) = truncateTitle t := by
  intro t
  by_cases h : t.length ≤ 15
  · rw [truncateTitle_of_le t h, truncateTitle_of_le t h]
  · have h' : 15 < t.length := Nat.not_le.mp h
    have h18 : 15 < (truncateTitle t).length := by
      rw [truncateTitle_length t h']
      decide
    rw [truncateTitle_of_lt (truncateTitle t) h18, truncateTitle_of_lt t h']
    have htk : (t.take 15 ++ "...").take 15 = t.take 15 := by
      rw [String.take_eq, String.data_append, String.data_take]
      rw [List.take_left' ?hlen, ← String.data_take, String.take_eq]
      case hlen =>
        rw [List.length_take]
        exact Nat.min_eq_left (Nat.le_of_lt h')
    rw [htk]

/-- Claim C10: two page changes in quick succession issue both fetches (one
per page), and whichever response is applied last determines the final
list, balance and total count, regardless of which request it answered. -/
theorem claim_C10_last_resolved_response_wins :
    ∀ (s : DashboardState) (q1 q2 : Nat) (rFirst rLast : FetchResponse),
      s.currentPage ≠ q1 → q1 ≠ q2 →
      (overlappingReloads s q1 q2 rFirst rLast).2 =
        [Request.getTransactions q1 5, Request.getTransactions q2 5] ∧
      (overlappingReloads s q1 q2 rFirst rLast).1.transactions =
        rLast.transactions ∧
      (overlappingReloads s q1 q2 rFirst rLast).1.balance =
        { income := some rLast.balance.income
          outcome := some rLast.balance.outcome
          total := some rLast.balance.total } ∧
      (overlappingReloads s q1 q2 rFirst rLast).1.totalTransactions =
        rLast.totalTransactions := by
  intro s q1 q2 rFirst rLast h1 h2
  simp only [overlappingReloads, changePageAndReload, handleChangePage,
    loadTransactionsStart, loadTransactionsFinish, if_neg h1, if_neg h2]
  exact ⟨rfl, trivial, trivial, trivial⟩

/-- Witness for C10: from the initial state, changing to page 2 then page 3
with two concrete responses in flight issues both fetches and ends with the
last response's data. -/
theorem claim_C10_last_resolved_response_wins_witness :
    (overlappingReloads initialState 2 3 sampleResponse sampleResponseB).2 =
      [Request.getTransactions 2 5, Request.getTransactions 3 5] ∧
    (overlappingReloads initialState 2 3 sampleResponse sampleResponseB).1.transactions =
      sampleResponseB.transactions ∧
    (overlappingReloads initialState 2 3 sampleResponse sampleResponseB).1.balance =
      { income := some sampleResponseB.balance.income
        outcome := some sampleResponseB.balance.outcome
        total := some sampleResponseB.balance.total } ∧
    (overlappingReloads initialState 2 3 sampleResponse sampleResponseB).1.totalTransactions =
      sampleResponseB.totalTransactions :=
  claim_C10_last_resolved_response_wins initialState 2 3
    sampleResponse sampleResponseB (by decide) (by decide)
